import Mathlib

/-!
Verification of the Option / Result / wrapException library.

The source is TypeScript; at runtime its generics are erased, so the
embedding works over a universe `JSVal` of JavaScript runtime values
(which in particular contains `undefined` — the value the library uses
to detect absence). Exceptions thrown by a method are modelled with
`Except JSVal`, the thrown value being the error payload.
-/

/-- The universe of JavaScript runtime values the embedding works over.
`undef` is `undefined`, `error m` is an `Error` object with message `m`,
`obj id` stands for any other object (identified by an id). -/
inductive JSVal : Type where
  | undef : JSVal
  | null : JSVal
  | bool (b : Bool) : JSVal
  | num (n : Int) : JSVal
  | str (s : String) : JSVal
  | error (msg : String) : JSVal
  | obj (id : Nat) : JSVal
deriving DecidableEq, Repr

/-- JavaScript string conversion, as performed by a template literal
interpolation such as the backtick string in `ResultImpl.unwrap`. -/
def jsToString : JSVal → String
  | JSVal.undef => "undefined"
  | JSVal.null => "null"
  | JSVal.bool true => "true"
  | JSVal.bool false => "false"
  | JSVal.num n => toString n
  | JSVal.str s => s
  | JSVal.error m => if m = "" then "Error" else "Error: " ++ m
  | JSVal.obj _ => "[object Object]"

/-- Embedding of `class OptionImpl<T> implements Option<T>`: a single
slot `value?: T`, which at runtime holds either a value or `undefined`. -/
structure OptionImpl : Type where
  value : JSVal
deriving DecidableEq, Repr

/-- `isSome(): boolean` — source: `return this.value !== undefined;`. -/
def OptionImpl.isSome (o : OptionImpl) : Bool :=
  decide (o.value ≠ JSVal.undef)

/-- `isNone(): boolean` — source: `return this.value === undefined;`. -/
def OptionImpl.isNone (o : OptionImpl) : Bool :=
  decide (o.value = JSVal.undef)

/-- `unwrap(): T` — returns the stored value when `isSome()`, otherwise
throws `new Error("called \x60unwrap()\x60 on a \x60None\x60 value")`. -/
def OptionImpl.unwrap (o : OptionImpl) : Except JSVal JSVal :=
  if o.isSome then Except.ok o.value
  else Except.error (JSVal.error "called `unwrap()` on a `None` value")

/-- `unwrapOr(defaultValue: T): T` — source:
`return this.isSome() ? (this.value as T) : defaultValue;`. -/
def OptionImpl.unwrapOr (o : OptionImpl) (defaultValue : JSVal) : JSVal :=
  if o.isSome then o.value else defaultValue

/-- `static some<T>(value: T)` — source: `return new OptionImpl(value);`. -/
def OptionImpl.some (value : JSVal) : OptionImpl :=
  OptionImpl.mk value

/-- `static none()` — source: `return new OptionImpl();`, so the optional
constructor parameter `value?` is `undefined`. -/
def OptionImpl.none : OptionImpl :=
  OptionImpl.mk JSVal.undef

/-- `export const Some = OptionImpl.some;`. -/
def Some : JSVal → OptionImpl := OptionImpl.some

/-- `export const None = OptionImpl.none();`. -/
def None : OptionImpl := OptionImpl.none

/-- Embedding of `class ResultImpl<T, E> implements Result<T, E>`:
a payload slot `value: T | E` plus a boolean discriminant `isError`. -/
structure ResultImpl : Type where
  value : JSVal
  isError : Bool
deriving DecidableEq, Repr

/-- `isOk(): boolean` — source: `return !this.isError;`. -/
def ResultImpl.isOk (r : ResultImpl) : Bool :=
  !r.isError

/-- `isErr(): boolean` — source: `return this.isError;`. -/
def ResultImpl.isErr (r : ResultImpl) : Bool :=
  r.isError

/-- `unwrap(): T` — returns the payload when `isOk()`, otherwise throws
an `Error` whose message interpolates the stringified payload. -/
def ResultImpl.unwrap (r : ResultImpl) : Except JSVal JSVal :=
  if r.isOk then Except.ok r.value
  else Except.error
    (JSVal.error ("called `unwrap()` on an `Err` value: " ++ jsToString r.value))

/-- `unwrapOr(defaultValue: T): T` — source:
`return this.isOk() ? (this.value as T) : defaultValue;`. -/
def ResultImpl.unwrapOr (r : ResultImpl) (defaultValue : JSVal) : JSVal :=
  if r.isOk then r.value else defaultValue

/-- `unwrapErr(): E` — returns the payload when `isErr()`, otherwise throws
an `Error` whose message interpolates the stringified payload. -/
def ResultImpl.unwrapErr (r : ResultImpl) : Except JSVal JSVal :=
  if r.isErr then Except.ok r.value
  else Except.error
    (JSVal.error ("called `unwrapErr()` on an `Ok` value: " ++ jsToString r.value))

/-- `ok(): Option<T>` — source:
`return this.isOk() ? Some(this.value as T) : None;`. -/
def ResultImpl.ok (r : ResultImpl) : OptionImpl :=
  if r.isOk then Some r.value else None

/-- `err(): Option<E>` — source:
`return this.isErr() ? Some(this.value as E) : None;`. -/
def ResultImpl.err (r : ResultImpl) : OptionImpl :=
  if r.isErr then Some r.value else None

/-- `export const Ok = ResultImpl.ok;` — the static factory
`static ok<T>(value: T) { return new ResultImpl<T, never>(value, false); }`. -/
def Ok (value : JSVal) : ResultImpl :=
  ResultImpl.mk value false

/-- `export const Err = ResultImpl.err;` — the static factory
`static err<E>(error: E) { return new ResultImpl<never, E>(error, true); }`. -/
def Err (error : JSVal) : ResultImpl :=
  ResultImpl.mk error true

/-- A JavaScript promise, modelled by its eventual settlement: it either
fulfills with a value of `α` or rejects with a `JSVal` reason. -/
inductive JSPromise (α : Type) : Type where
  | fulfilled (v : α) : JSPromise α
  | rejected (reason : JSVal) : JSPromise α
deriving DecidableEq, Repr

/-- `p.then(f)` for a fulfillment handler `f` that either returns a plain
(non-promise) value or throws: the resulting promise fulfills with the
handler's return value, rejects with what the handler throws, and passes
a rejection of `p` through unchanged. -/
def JSPromise.thenP (p : JSPromise α) (f : α → Except JSVal β) : JSPromise β :=
  match p with
  | JSPromise.fulfilled v =>
    match f v with
    | Except.ok b => JSPromise.fulfilled b
    | Except.error e => JSPromise.rejected e
  | JSPromise.rejected e => JSPromise.rejected e

/-- `p.catch(g)` for a rejection handler `g` that either returns a plain
value or throws: a fulfillment of `p` passes through unchanged, a
rejection is mapped by the handler. -/
def JSPromise.catchP (p : JSPromise α) (g : JSVal → Except JSVal α) : JSPromise α :=
  match p with
  | JSPromise.fulfilled v => JSPromise.fulfilled v
  | JSPromise.rejected e =>
    match g e with
    | Except.ok a => JSPromise.fulfilled a
    | Except.error e2 => JSPromise.rejected e2

/-- The observable outcome of invoking `callback()`: it returns a plain
(non-promise) value, returns a `Promise` instance, or throws
synchronously. The `instanceof Promise` test in the source distinguishes
exactly the first two shapes. -/
inductive CallbackResult : Type where
  | ret (v : JSVal) : CallbackResult
  | retPromise (p : JSPromise JSVal) : CallbackResult
  | thrown (e : JSVal) : CallbackResult
deriving DecidableEq, Repr

/-- The value `wrapper` hands back: `Result<T, E> | Promise<Result<T, E>>`. -/
inductive WrapOutput : Type where
  | result (r : ResultImpl) : WrapOutput
  | promise (p : JSPromise ResultImpl) : WrapOutput
deriving DecidableEq, Repr

/-- The `try` block of `wrapper`: `const result = callback();` (whose
throw propagates as `Except.error`), then
`if (result instanceof Promise) return result.then(...).catch(...);`
else `return Ok(result);`. -/
def wrapperTry (c : CallbackResult) : Except JSVal WrapOutput :=
  match c with
  | CallbackResult.thrown e => Except.error e
  | CallbackResult.ret v => Except.ok (WrapOutput.result (Ok v))
  | CallbackResult.retPromise p =>
    Except.ok (WrapOutput.promise
      ((p.thenP (fun value => Except.ok (Ok value))).catchP
        (fun error => Except.ok (Err error))))

/-- `function wrapper<T, E>(callback)` — the `try`/`catch`: a synchronous
throw from `callback()` is caught and becomes `Err(error)`. -/
def wrapper (c : CallbackResult) : WrapOutput :=
  match wrapperTry c with
  | Except.ok w => w
  | Except.error e => WrapOutput.result (Err e)

/-- `export default function wrapException(callback)` — source:
`return wrapper(callback) as WrapExceptionResult<T, E>;` (the cast is a
type-level annotation with no runtime effect). -/
def wrapException (c : CallbackResult) : WrapOutput :=
  wrapper c

/-! Theorems for the claims. -/

/-- Claim C1, counterexample: at the concrete input `undefined` the claim
as stated fails — the option built by `Some` is not present, because
presence is detected by comparing the slot against `undefined`. -/
theorem some_undef_violates_present_claim :
    ¬ ((Some JSVal.undef).isSome = true ∧ (Some JSVal.undef).isNone = false ∧
      (Some JSVal.undef).unwrap = Except.ok JSVal.undef) := by
  intro h
  simpa [Some, OptionImpl.some, OptionImpl.isSome] using h.1

/-- Claim C1 (amended): for every value `v` other than `undefined`, the
option built by the present factory satisfies `isSome() = true`,
`isNone() = false`, and `unwrap()` returns `v` itself. -/
theorem some_isSome_unwrap_of_ne_undef (v : JSVal) (h : v ≠ JSVal.undef) :
    (Some v).isSome = true ∧ (Some v).isNone = false ∧
      (Some v).unwrap = Except.ok v := by
  refine ⟨?_, ?_, ?_⟩
  · simp [Some, OptionImpl.some, OptionImpl.isSome, h]
  · simp [Some, OptionImpl.some, OptionImpl.isNone, h]
  · simp [Some, OptionImpl.some, OptionImpl.unwrap, OptionImpl.isSome, h]

/-- Claim C1, witness at the concrete value `5`. -/
theorem some_isSome_unwrap_witness :
    (JSVal.num 5 ≠ JSVal.undef) ∧
      ((Some (JSVal.num 5)).isSome = true ∧ (Some (JSVal.num 5)).isNone = false ∧
        (Some (JSVal.num 5)).unwrap = Except.ok (JSVal.num 5)) :=
  ⟨by decide, some_isSome_unwrap_of_ne_undef (JSVal.num 5) (by decide)⟩

/-- Claim C2, counterexample: at the concrete input `undefined` the claim
as stated fails — `Ok(undefined).ok()` is an absent option, so its
`unwrap()` does not return the stored value. -/
theorem ok_undef_violates_claim :
    ¬ ((Ok JSVal.undef).isOk = true ∧
      ((Ok JSVal.undef).ok).isSome = true ∧
      ((Ok JSVal.undef).ok).unwrap = Except.ok JSVal.undef ∧
      ((Ok JSVal.undef).err).isNone = true) := by
  intro h
  simpa [Ok, ResultImpl.ok, ResultImpl.isOk, Some, OptionImpl.some,
    OptionImpl.isSome] using h.2.1

/-- Claim C2 (amended): for every value `v` other than `undefined`, the
result built by the success factory satisfies `isOk() = true`, `ok()` is
a present option whose `unwrap()` returns `v`, and `err()` is absent. -/
theorem ok_factory_projections_of_ne_undef (v : JSVal) (h : v ≠ JSVal.undef) :
    (Ok v).isOk = true ∧
      ((Ok v).ok).isSome = true ∧
      ((Ok v).ok).unwrap = Except.ok v ∧
      ((Ok v).err).isNone = true := by
  refine ⟨rfl, ?_, ?_, rfl⟩
  · simp [Ok, ResultImpl.ok, ResultImpl.isOk, Some, OptionImpl.some,
      OptionImpl.isSome, h]
  · simp [Ok, ResultImpl.ok, ResultImpl.isOk, Some, OptionImpl.some,
      OptionImpl.unwrap, OptionImpl.isSome, h]

/-- Claim C2, witness at the concrete value `42`. -/
theorem ok_factory_projections_witness :
    (JSVal.num 42 ≠ JSVal.undef) ∧
      ((Ok (JSVal.num 42)).isOk = true ∧
        ((Ok (JSVal.num 42)).ok).isSome = true ∧
        ((Ok (JSVal.num 42)).ok).unwrap = Except.ok (JSVal.num 42) ∧
        ((Ok (JSVal.num 42)).err).isNone = true) :=
  ⟨by decide, ok_factory_projections_of_ne_undef (JSVal.num 42) (by decide)⟩

/-- Claim C6: misusing the unwrappers raises a contract violation — for
every `v`, `Ok(v).unwrapErr()` throws an `Error` carrying the stringified
success payload, and for every `e`, `Err(e).unwrap()` throws an `Error`
carrying the stringified failure payload; neither returns normally. -/
theorem result_contract_violations :
    (∀ v, (Ok v).unwrapErr = Except.error
        (JSVal.error ("called `unwrapErr()` on an `Ok` value: " ++ jsToString v))) ∧
      (∀ e, (Err e).unwrap = Except.error
        (JSVal.error ("called `unwrap()` on an `Err` value: " ++ jsToString e))) :=
  ⟨fun _ => rfl, fun _ => rfl⟩

/-- Claim C7: for every failure payload `e` (even `undefined`, since the
result discriminant is an explicit boolean), `Err(e).isErr() = true`,
`unwrapErr()` returns `e` itself, and `ok()` is an absent option. -/
theorem err_factory_projections (e : JSVal) :
    (Err e).isErr = true ∧
      (Err e).unwrapErr = Except.ok e ∧
      ((Err e).ok).isNone = true :=
  ⟨rfl, rfl, rfl⟩

/-- Claim C9: the absent factory yields an option with `isSome() = false`
and `isNone() = true`, whose `unwrap()` raises a contract violation
rather than returning. -/
theorem none_absent_spec :
    None.isSome = false ∧ None.isNone = true ∧
      None.unwrap = Except.error
        (JSVal.error "called `unwrap()` on a `None` value") :=
  ⟨rfl, rfl, rfl⟩

/-- Claim C8, counterexample: at the concrete stored value `undefined`
the claim as stated fails — `Some(undefined).unwrapOr(0)` returns the
fallback `0`, not the stored value `undefined`. -/
theorem unwrapOr_undef_counterexample :
    ¬ ((Some JSVal.undef).unwrapOr (JSVal.num 0) = JSVal.undef) := by
  decide

/-- Claim C8 (amended): for every value `v` other than `undefined` and
every fallback, `Some(v).unwrapOr(fallback) = v`; and for every fallback,
`None.unwrapOr(fallback) = fallback` (the total function never fails). -/
theorem unwrapOr_spec :
    (∀ v fallback, v ≠ JSVal.undef → (Some v).unwrapOr fallback = v) ∧
      (∀ fallback, None.unwrapOr fallback = fallback) := by
  refine ⟨?_, fun _ => rfl⟩
  intro v fallback h
  simp [Some, OptionImpl.some, OptionImpl.unwrapOr, OptionImpl.isSome, h]

/-- Claim C8, witness at the concrete value `7` and fallback `0`. -/
theorem unwrapOr_spec_witness :
    (Some (JSVal.num 7)).unwrapOr (JSVal.num 0) = JSVal.num 7 :=
  unwrapOr_spec.1 (JSVal.num 7) (JSVal.num 0) (by decide)

/-- Claim C10: storing `undefined` conflates with absence — `Some(undefined)`
is not some, is none, its `unwrap()` raises, its `unwrapOr` returns the
fallback, and both `Ok(undefined).ok()` and `Err(undefined).err()` are
absent options, because presence is detected by comparing against
`undefined` rather than by a discriminant tag. -/
theorem undefined_conflates_with_absent :
    (Some JSVal.undef).isSome = false ∧
      (Some JSVal.undef).isNone = true ∧
      (Some JSVal.undef).unwrap = Except.error
        (JSVal.error "called `unwrap()` on a `None` value") ∧
      (∀ fallback, (Some JSVal.undef).unwrapOr fallback = fallback) ∧
      ((Ok JSVal.undef).ok).isNone = true ∧
      ((Err JSVal.undef).err).isNone = true :=
  ⟨rfl, rfl, rfl, fun _ => rfl, rfl, rfl⟩

/-- Claim C4: a computation that returns a plain value `v` makes the
adapter return the non-deferred `Ok(v)` immediately, and one that throws
synchronously with `e` makes it return the non-deferred `Err(e)` — the
thrown value is captured as the failure payload, not rethrown. -/
theorem wrapException_sync_paths :
    (∀ v, wrapException (CallbackResult.ret v) = WrapOutput.result (Ok v)) ∧
      (∀ e, wrapException (CallbackResult.thrown e) = WrapOutput.result (Err e)) :=
  ⟨fun _ => rfl, fun _ => rfl⟩

/-- Claim C3: the adapter absorbs every failure — a synchronous throw
becomes an immediate `Err`, a deferred rejection with reason `e` makes
the returned deferred handle fulfill (not reject) with `Err(e)`, and any
deferred handle the adapter returns fulfills with some result, so no
rejection is ever left unhandled. -/
theorem wrapException_absorbs_failures :
    (∀ e, wrapException (CallbackResult.thrown e) = WrapOutput.result (Err e)) ∧
      (∀ e, wrapException (CallbackResult.retPromise (JSPromise.rejected e)) =
        WrapOutput.promise (JSPromise.fulfilled (Err e))) ∧
      (∀ c p, wrapException c = WrapOutput.promise p →
        ∃ r, p = JSPromise.fulfilled r) := by
  refine ⟨fun _ => rfl, fun _ => rfl, ?_⟩
  intro c p h
  cases c with
  | ret v => exact absurd h (by simp [wrapException, wrapper, wrapperTry])
  | thrown e => exact absurd h (by simp [wrapException, wrapper, wrapperTry])
  | retPromise q =>
    cases q with
    | fulfilled v =>
      simp only [wrapException, wrapper, wrapperTry, JSPromise.thenP,
        JSPromise.catchP, WrapOutput.promise.injEq] at h
      exact ⟨Ok v, h.symm⟩
    | rejected e =>
      simp only [wrapException, wrapper, wrapperTry, JSPromise.thenP,
        JSPromise.catchP, WrapOutput.promise.injEq] at h
      exact ⟨Err e, h.symm⟩

/-- Claim C3, witness: applying the absorption theorem to a computation
whose promise rejects with the string "async boom". -/
theorem wrapException_absorbs_failures_witness :
    ∃ r, JSPromise.fulfilled (Err (JSVal.str "async boom")) = JSPromise.fulfilled r :=
  wrapException_absorbs_failures.2.2
    (CallbackResult.retPromise (JSPromise.rejected (JSVal.str "async boom")))
    (JSPromise.fulfilled (Err (JSVal.str "async boom"))) rfl

/-- Claim C5: the adapter returns a deferred handle exactly when invoking
the computation returned a `Promise` instance — independently of how the
promise was produced — and in particular a promise that is already
fulfilled (an async function that resolved synchronously) still takes
the deferred path. -/
theorem wrapException_deferred_iff_promise :
    (∀ c, (∃ p, wrapException c = WrapOutput.promise p) ↔
        ∃ q, c = CallbackResult.retPromise q) ∧
      (∀ v, wrapException (CallbackResult.retPromise (JSPromise.fulfilled v)) =
        WrapOutput.promise (JSPromise.fulfilled (Ok v))) := by
  refine ⟨?_, fun _ => rfl⟩
  intro c
  constructor
  · rintro ⟨p, h⟩
    cases c with
    | ret v => exact absurd h (by simp [wrapException, wrapper, wrapperTry])
    | thrown e => exact absurd h (by simp [wrapException, wrapper, wrapperTry])
    | retPromise q => exact ⟨q, rfl⟩
  · rintro ⟨q, rfl⟩
    exact ⟨_, rfl⟩

/-- Claim C5, witness: a synchronously resolved promise still takes the
deferred path. -/
theorem wrapException_deferred_iff_promise_witness :
    ∃ p, wrapException (CallbackResult.retPromise (JSPromise.fulfilled (JSVal.num 1))) =
      WrapOutput.promise p :=
  (wrapException_deferred_iff_promise.1
      (CallbackResult.retPromise (JSPromise.fulfilled (JSVal.num 1)))).mpr
    ⟨JSPromise.fulfilled (JSVal.num 1), rfl⟩
